import Mathlib

/-!
Shallow embedding of `src/model.rs` (a work-in-progress chess engine).

Conventions of the embedding:
* Rust `i8` values are modelled as unbounded `Int`; every value the claims
  touch is far from the `i8` overflow boundaries, so no wraparound is modelled.
* The per-piece legality functions are direct transcriptions of the Rust
  functions of the same names (`isPawnMoveValid`, ..., `emptyPieceMove`).
* The function-pointer field `isMoveValid: fn (Piece, Move) -> bool` of the
  Rust `Piece` struct is modelled by the closed enumeration `MoveRule` naming
  which of the seven functions is stored, together with the dispatcher
  `runRule` that applies the named function.
* The Rust array `[[Piece; 8]; 8]` is modelled as a total function
  `Nat → Nat → Piece`; only indices `0..7` are ever consulted.
* The Rust `Move` field `end` is renamed `end_` (Lean keyword).
-/

namespace Regalis

/-- `const BOARD_DIMENSIONS: usize = 8` (model.rs line 4); the comparisons in
the legality functions cast it to `i8`, modelled here as `Int`. -/
def BOARD_DIMENSIONS : Int := 8

/-- The three-valued color enum of model.rs lines 19-23: `White`, `Black` and
the sentinel value `Empty` used for unoccupied cells. -/
inductive Color
  | White
  | Black
  | Empty
deriving DecidableEq, Repr

/-- `struct Position { x: i8, y: i8 }` (model.rs lines 26-29). -/
structure Position where
  x : Int
  y : Int
deriving DecidableEq, Repr

/-- `struct Move { start: Position, end: Position }` (model.rs lines 32-35);
the `end` field is called `end_` because `end` is a Lean keyword. -/
structure Move where
  start : Position
  end_ : Position
deriving DecidableEq, Repr

/-- Names for the seven concrete functions a `Piece`'s function-pointer field
`isMoveValid` can hold in model.rs. -/
inductive MoveRule
  | pawnRule
  | rookRule
  | bishopRule
  | knightRule
  | queenRule
  | kingRule
  | emptyRule
deriving DecidableEq, Repr

/-- `struct Piece` (model.rs lines 39-46); the function pointer field is
modelled by the `MoveRule` name of the stored function. -/
structure Piece where
  boardRep : Char
  captured : Bool
  firstMove : Bool
  color : Color
  position : Position
  isMoveValid : MoveRule
deriving DecidableEq, Repr

/-- `isPawnMoveValid` (model.rs lines 48-73).  Note the control flow of the
source: the shape test (`(y == 1 || (y == 2 && firstMove)) && x == 0`) returns
`true` BEFORE the off-board check is reached, and the off-board check only
tests `>= BOARD_DIMENSIONS`. -/
def isPawnMoveValid (pawn : Piece) (movement : Move) : Bool :=
  if pawn.captured = true then false else
  let yRaw : Int := movement.end_.y - movement.start.y
  let y : Int :=
    match pawn.color with
    | Color.Black => -yRaw
    | Color.White => yRaw
    | Color.Empty => yRaw
  let x : Int := movement.end_.x - movement.start.x
  if (y = 1 ∨ (y = 2 ∧ pawn.firstMove = true)) ∧ x = 0 then true
  else if BOARD_DIMENSIONS ≤ movement.end_.x ∨ BOARD_DIMENSIONS ≤ movement.end_.y then false
  else false

/-- `isRookMoveValid` (model.rs lines 75-92).  The path-obstruction check is a
`TODO` in the source: any non-diagonal move with an in-(upper)-bounds
destination is accepted. -/
def isRookMoveValid (rook : Piece) (movement : Move) : Bool :=
  if rook.captured = true then false
  else if BOARD_DIMENSIONS ≤ movement.end_.x ∨ BOARD_DIMENSIONS ≤ movement.end_.y then false
  else
    let x : Int := movement.end_.x - movement.start.x
    let y : Int := movement.end_.y - movement.start.y
    if x ≠ 0 ∧ y ≠ 0 then false
    else true

/-- `isBishopMoveValid` (model.rs lines 94-112).  The path-obstruction check
is a `TODO` in the source. -/
def isBishopMoveValid (bishop : Piece) (movement : Move) : Bool :=
  if bishop.captured = true then false
  else if BOARD_DIMENSIONS ≤ movement.end_.x ∨ BOARD_DIMENSIONS ≤ movement.end_.y then false
  else
    let x : Int := movement.end_.x - movement.start.x
    let y : Int := movement.end_.y - movement.start.y
    if x.natAbs ≠ y.natAbs then false
    else true

/-- `isKnightMoveValid` (model.rs lines 114-136): accepted iff the 1-norm of
the displacement is 3 and the squared 2-norm is 5. -/
def isKnightMoveValid (knight : Piece) (movement : Move) : Bool :=
  if knight.captured = true then false
  else if BOARD_DIMENSIONS ≤ movement.end_.x ∨ BOARD_DIMENSIONS ≤ movement.end_.y then false
  else
    let x : Int := movement.start.x - movement.end_.x
    let y : Int := movement.start.y - movement.end_.y
    let oneNorm : Nat := x.natAbs + y.natAbs
    let twoNormSquare : Int := x * x + y * y
    if oneNorm = 3 ∧ twoNormSquare = 5 then true
    else false

/-- `isQueenMoveValid` (model.rs lines 138-169).  All four piece-jumping
checks are `TODO`s in the source. -/
def isQueenMoveValid (queen : Piece) (movement : Move) : Bool :=
  if queen.captured = true then false
  else if BOARD_DIMENSIONS ≤ movement.end_.x ∨ BOARD_DIMENSIONS ≤ movement.end_.y then false
  else
    let x : Int := movement.end_.x - movement.start.x
    let y : Int := movement.end_.y - movement.start.y
    if x ≠ 0 ∧ y = 0 then true
    else if x = 0 ∧ y ≠ 0 then true
    else if x = y then true
    else if x = -y then true
    else false

/-- `isKingMoveValid` (model.rs lines 171-190).  Note the source compares the
SIGNED displacements: `if x > 1 || y > 1 { return false; }` — no absolute
value, and no exclusion of the zero move. -/
def isKingMoveValid (king : Piece) (movement : Move) : Bool :=
  if king.captured = true then false
  else if BOARD_DIMENSIONS ≤ movement.end_.x ∨ BOARD_DIMENSIONS ≤ movement.end_.y then false
  else
    let x : Int := movement.end_.x - movement.start.x
    let y : Int := movement.end_.y - movement.start.y
    if 1 < x ∨ 1 < y then false
    else true

/-- `emptyPieceMove` (model.rs lines 192-194): the sentinel predicate stored
in unoccupied cells; always `false`. -/
def emptyPieceMove (_empty : Piece) (_emptyMove : Move) : Bool :=
  false

/-- Dispatch of the function-pointer field: applies the function named by a
`MoveRule`, exactly as Rust would call the stored `fn (Piece, Move) -> bool`. -/
def runRule : MoveRule → Piece → Move → Bool
  | MoveRule.pawnRule => isPawnMoveValid
  | MoveRule.rookRule => isRookMoveValid
  | MoveRule.bishopRule => isBishopMoveValid
  | MoveRule.knightRule => isKnightMoveValid
  | MoveRule.queenRule => isQueenMoveValid
  | MoveRule.kingRule => isKingMoveValid
  | MoveRule.emptyRule => emptyPieceMove

/-- `struct Board` (model.rs lines 7-9): the 8×8 array of pieces, modelled as
a total function consulted only at indices `0..7`. -/
structure Board where
  state : Nat → Nat → Piece

/-- `struct Game` (model.rs lines 12-15). -/
structure Game where
  turn : Color
  board : Board

/-- The sentinel piece every cell is initialised to in `Game::new`
(model.rs lines 204-206): captured, color `Empty`, position `(-1,-1)`,
move function `emptyPieceMove`. -/
def emptyCellPiece : Piece :=
  { boardRep := '_', captured := true, firstMove := false, color := Color.Empty,
    position := { x := -1, y := -1 }, isMoveValid := MoveRule.emptyRule }

/-- The white back-rank assignments of `Game::new` (model.rs lines 222-245),
by file.  Faithful to the source, including line 228-230 where the square
`[0][2]` gets glyph `'B'` but the function `isRookMoveValid`. -/
def whiteBackRankPiece : Nat → Piece
  | 0 => { boardRep := 'R', captured := false, firstMove := true, color := Color.White,
           position := { x := 0, y := 0 }, isMoveValid := MoveRule.rookRule }
  | 1 => { boardRep := 'N', captured := false, firstMove := true, color := Color.White,
           position := { x := 0, y := 1 }, isMoveValid := MoveRule.knightRule }
  | 2 => { boardRep := 'B', captured := false, firstMove := true, color := Color.White,
           position := { x := 0, y := 2 }, isMoveValid := MoveRule.rookRule }
  | 3 => { boardRep := 'Q', captured := false, firstMove := true, color := Color.White,
           position := { x := 0, y := 3 }, isMoveValid := MoveRule.queenRule }
  | 4 => { boardRep := 'K', captured := false, firstMove := true, color := Color.White,
           position := { x := 0, y := 4 }, isMoveValid := MoveRule.kingRule }
  | 5 => { boardRep := 'B', captured := false, firstMove := true, color := Color.White,
           position := { x := 0, y := 5 }, isMoveValid := MoveRule.bishopRule }
  | 6 => { boardRep := 'N', captured := false, firstMove := true, color := Color.White,
           position := { x := 0, y := 6 }, isMoveValid := MoveRule.knightRule }
  | 7 => { boardRep := 'R', captured := false, firstMove := true, color := Color.White,
           position := { x := 0, y := 7 }, isMoveValid := MoveRule.rookRule }
  | _ => emptyCellPiece

/-- The black back-rank assignments of `Game::new` (model.rs lines 257-280),
by file.  Faithful to the source, including line 263-265 (`[7][2]` gets glyph
`'b'` but `isRookMoveValid`) and the stored positions `{x: 0, y: file}`
(the source writes `x: 0`, not `x: 7`, for every black back-rank piece). -/
def blackBackRankPiece : Nat → Piece
  | 0 => { boardRep := 'r', captured := false, firstMove := true, color := Color.Black,
           position := { x := 0, y := 0 }, isMoveValid := MoveRule.rookRule }
  | 1 => { boardRep := 'n', captured := false, firstMove := true, color := Color.Black,
           position := { x := 0, y := 1 }, isMoveValid := MoveRule.knightRule }
  | 2 => { boardRep := 'b', captured := false, firstMove := true, color := Color.Black,
           position := { x := 0, y := 2 }, isMoveValid := MoveRule.rookRule }
  | 3 => { boardRep := 'q', captured := false, firstMove := true, color := Color.Black,
           position := { x := 0, y := 3 }, isMoveValid := MoveRule.queenRule }
  | 4 => { boardRep := 'k', captured := false, firstMove := true, color := Color.Black,
           position := { x := 0, y := 4 }, isMoveValid := MoveRule.kingRule }
  | 5 => { boardRep := 'b', captured := false, firstMove := true, color := Color.Black,
           position := { x := 0, y := 5 }, isMoveValid := MoveRule.bishopRule }
  | 6 => { boardRep := 'n', captured := false, firstMove := true, color := Color.Black,
           position := { x := 0, y := 6 }, isMoveValid := MoveRule.knightRule }
  | 7 => { boardRep := 'r', captured := false, firstMove := true, color := Color.Black,
           position := { x := 0, y := 7 }, isMoveValid := MoveRule.rookRule }
  | _ => emptyCellPiece

/-- The board produced by `Game::new` (model.rs lines 198-283): rank 0 holds
the white back rank, rank 1 the white pawns (`'P'`, position `{x:1, y:file}`,
`isPawnMoveValid`, lines 212-219), rank 6 the black pawns (`'p'`, position
`{x:6, y:file}`, lines 247-254), rank 7 the black back rank, and every other
cell keeps the `emptyCellPiece` sentinel of the initialisation. -/
def gameNewBoard : Nat → Nat → Piece := fun rank file =>
  if rank = 0 then whiteBackRankPiece file
  else if rank = 1 then
    { boardRep := 'P', captured := false, firstMove := true, color := Color.White,
      position := { x := 1, y := (file : Int) }, isMoveValid := MoveRule.pawnRule }
  else if rank = 6 then
    { boardRep := 'p', captured := false, firstMove := true, color := Color.Black,
      position := { x := 6, y := (file : Int) }, isMoveValid := MoveRule.pawnRule }
  else if rank = 7 then blackBackRankPiece file
  else emptyCellPiece

/-- `Game::new` (model.rs lines 198-283): white to move, board as above. -/
def Game.new : Game :=
  { turn := Color.White, board := { state := gameNewBoard } }

/-- The unconditional turn toggle at the bottom of `run_game`
(model.rs lines 316-320). -/
def nextTurn : Color → Color
  | Color.White => Color.Black
  | Color.Black => Color.White
  | Color.Empty => Color.Empty

/-- A single cell assignment `board.state[rank][file] = piece`, the update
shape used throughout `Game::new`. -/
def boardUpdate (b : Nat → Nat → Piece) (rank file : Nat) (p : Piece) : Nat → Nat → Piece :=
  fun i j => if i = rank ∧ j = file then p else b i j

/-- The spec gives each kind's `shape_legal` the signature
`shape_legal(board, mover, move)`; the code's knight predicate is
`fn (Piece, Move) -> bool` and never reads the board.  This wrapper exposes
the code's knight predicate at the spec's signature (the board argument is
ignored, exactly because the code takes none). -/
def knightShapeOn (_board : Nat → Nat → Piece) (knight : Piece) (movement : Move) : Bool :=
  isKnightMoveValid knight movement

/-- Arithmetic core of the knight rule: 1-norm 3 together with squared 2-norm
5 holds exactly when the absolute displacements are a permutation of (1,2). -/
lemma knight_norm_iff (u v : Int) :
    (u.natAbs + v.natAbs = 3 ∧ u * u + v * v = 5) ↔
    ((u.natAbs = 1 ∧ v.natAbs = 2) ∨ (u.natAbs = 2 ∧ v.natAbs = 1)) := by
  have hu : ((u.natAbs * u.natAbs : Nat) : Int) = u * u := Int.natAbs_mul_self
  have hv : ((v.natAbs * v.natAbs : Nat) : Int) = v * v := Int.natAbs_mul_self
  constructor
  · rintro ⟨h1, h2⟩
    rw [← hu, ← hv] at h2
    have h2n : u.natAbs * u.natAbs + v.natAbs * v.natAbs = 5 := by exact_mod_cast h2
    generalize hA : u.natAbs = a at h1 h2n ⊢
    generalize hB : v.natAbs = b at h1 h2n ⊢
    have ha : a ≤ 3 := by omega
    have hb : b ≤ 3 := by omega
    interval_cases a <;> interval_cases b <;> omega
  · rintro (⟨h1, h2⟩ | ⟨h1, h2⟩) <;>
      exact ⟨by omega, by rw [← hu, ← hv, h1, h2]; norm_num⟩

/-- C1: the spec claims every legality predicate's success implies an
in-bounds destination and source ≠ destination; the code violates both.  The
pawn predicate tests the move shape before the off-board test and accepts a
destination with y = 9; the bishop predicate's off-board test only compares
against the upper bound 8, so a destination of (-1,-1) is accepted; and the
rook predicate accepts the null move (source = destination). -/
theorem shape_predicates_accept_offboard_and_null_moves :
    isPawnMoveValid (Game.new.board.state 1 0)
      { start := { x := 1, y := 7 }, end_ := { x := 1, y := 9 } } = true ∧
    isBishopMoveValid (Game.new.board.state 0 5)
      { start := { x := 1, y := 1 }, end_ := { x := -1, y := -1 } } = true ∧
    isRookMoveValid (Game.new.board.state 0 0)
      { start := { x := 4, y := 4 }, end_ := { x := 4, y := 4 } } = true := by
  decide

/-- C2: the spec claims the king predicate accepts exactly the moves with
|dx| ≤ 1, |dy| ≤ 1, excluding the zero move; the code compares the SIGNED
displacements (`x > 1 || y > 1`), so the fresh white king accepts a move four
squares to the left (dx = -4), and it also accepts the zero move. -/
theorem king_accepts_far_and_null_moves :
    isKingMoveValid (Game.new.board.state 0 4)
      { start := { x := 4, y := 4 }, end_ := { x := 0, y := 4 } } = true ∧
    isKingMoveValid (Game.new.board.state 0 4)
      { start := { x := 4, y := 4 }, end_ := { x := 4, y := 4 } } = true := by
  decide

/-- C3: the spec claims rook/bishop/queen moves over an occupied intervening
square are rejected; the code's obstruction checks are `TODO`s, so from the
`Game::new` position the rook on (0,0) may move to (4,0) through the pawn on
(1,0), the queen on (0,3) to (4,3) through the pawn on (1,3), and the bishop
on (0,5) to (2,7) through the pawn on (1,6) — all accepted. -/
theorem sliders_accept_blocked_paths :
    ((Game.new.board.state 1 0).captured = false ∧
     isRookMoveValid (Game.new.board.state 0 0)
       { start := { x := 0, y := 0 }, end_ := { x := 4, y := 0 } } = true) ∧
    ((Game.new.board.state 1 3).captured = false ∧
     isQueenMoveValid (Game.new.board.state 0 3)
       { start := { x := 0, y := 3 }, end_ := { x := 4, y := 3 } } = true) ∧
    ((Game.new.board.state 1 6).captured = false ∧
     isBishopMoveValid (Game.new.board.state 0 5)
       { start := { x := 0, y := 5 }, end_ := { x := 2, y := 7 } } = true) := by
  decide

/-- C4: the spec claims a pawn's two-square advance requires both intervening
squares to be empty; the pawn predicate takes no board argument, consults
only the `firstMove` flag, and accepts a fresh pawn's two-square advance
(along its own forward axis y) straight over the occupied cell (1,5) — indeed
even onto the occupied destination (1,6). -/
theorem pawn_double_step_ignores_obstruction :
    (Game.new.board.state 1 5).captured = false ∧
    (Game.new.board.state 1 4).firstMove = true ∧
    isPawnMoveValid (Game.new.board.state 1 4)
      { start := { x := 1, y := 4 }, end_ := { x := 1, y := 6 } } = true := by
  decide

/-- C5: the spec claims a one-square diagonal forward pawn move onto an
opposing piece is legal (a capture); the pawn predicate requires the
x-displacement to be 0 (its comment: "Currently not checking for attack"),
so every diagonal pawn move is rejected no matter what stands on the
destination — the predicate cannot even see the board. -/
theorem pawn_rejects_diagonal_capture :
    isPawnMoveValid (Game.new.board.state 1 4)
      { start := { x := 1, y := 4 }, end_ := { x := 2, y := 5 } } = false := by
  decide

/-- C6: for a non-captured knight and a move with an in-bounds destination,
the knight predicate accepts exactly when (|dx|, |dy|) is a permutation of
(1, 2); and since the predicate is a function of the piece and move alone,
placing any piece on any square leaves the outcome unchanged. -/
theorem knight_shape_iff_one_two (p : Piece) (m : Move)
    (b : Nat → Nat → Piece) (i j : Nat) (q : Piece)
    (hc : p.captured = false)
    (hx0 : 0 ≤ m.end_.x) (hx8 : m.end_.x < 8)
    (hy0 : 0 ≤ m.end_.y) (hy8 : m.end_.y < 8) :
    (isKnightMoveValid p m = true ↔
      (((m.end_.x - m.start.x).natAbs = 1 ∧ (m.end_.y - m.start.y).natAbs = 2) ∨
       ((m.end_.x - m.start.x).natAbs = 2 ∧ (m.end_.y - m.start.y).natAbs = 1))) ∧
    knightShapeOn (boardUpdate b i j q) p m = knightShapeOn b p m := by
  refine ⟨?_, rfl⟩
  have hcap : ¬ (p.captured = true) := by simp [hc]
  have hbnd : ¬ (BOARD_DIMENSIONS ≤ m.end_.x ∨ BOARD_DIMENSIONS ≤ m.end_.y) := by
    unfold BOARD_DIMENSIONS
    push_neg
    exact ⟨hx8, hy8⟩
  unfold isKnightMoveValid
  rw [if_neg hcap, if_neg hbnd]
  simp only []
  by_cases h : ((m.start.x - m.end_.x).natAbs + (m.start.y - m.end_.y).natAbs = 3 ∧
      (m.start.x - m.end_.x) * (m.start.x - m.end_.x) +
        (m.start.y - m.end_.y) * (m.start.y - m.end_.y) = 5)
  · rw [if_pos h]
    have hperm := (knight_norm_iff _ _).mp h
    simp only [true_iff]
    rcases hperm with ⟨h1, h2⟩ | ⟨h1, h2⟩
    · left; constructor <;> omega
    · right; constructor <;> omega
  · rw [if_neg h]
    constructor
    · intro hfalse; exact absurd hfalse (by simp)
    · intro hperm
      exfalso
      apply h
      apply (knight_norm_iff _ _).mpr
      rcases hperm with ⟨h1, h2⟩ | ⟨h1, h2⟩
      · left; omega
      · right; omega

/-- Witness for C6: the fresh white knight on (0,1) moving to (2,2), with the
white queen placed on the intervening square (1,2). -/
theorem knight_shape_iff_one_two_witness :
    (Game.new.board.state 0 1).captured = false ∧
    ((isKnightMoveValid (Game.new.board.state 0 1)
        { start := { x := 0, y := 1 }, end_ := { x := 2, y := 2 } } = true ↔
      ((((2 : Int) - 0).natAbs = 1 ∧ (((2 : Int) - 1).natAbs = 2)) ∨
       (((2 : Int) - 0).natAbs = 2 ∧ (((2 : Int) - 1).natAbs = 1)))) ∧
     knightShapeOn (boardUpdate Game.new.board.state 1 2 (Game.new.board.state 0 3))
        (Game.new.board.state 0 1)
        { start := { x := 0, y := 1 }, end_ := { x := 2, y := 2 } } =
      knightShapeOn Game.new.board.state (Game.new.board.state 0 1)
        { start := { x := 0, y := 1 }, end_ := { x := 2, y := 2 } }) :=
  ⟨by decide,
   knight_shape_iff_one_two (Game.new.board.state 0 1)
     { start := { x := 0, y := 1 }, end_ := { x := 2, y := 2 } }
     Game.new.board.state 1 2 (Game.new.board.state 0 3)
     (by decide) (by decide) (by decide) (by decide) (by decide)⟩

/-- C7: the spec claims `Game::new` builds the standard starting position
with each piece carrying the legality rule and stored position of its kind
and square.  The turn is indeed White, and the glyphs are the standard ones,
but both c-file bishops (`'B'` on [0][2], `'b'` on [7][2]) are constructed
with `isRookMoveValid`, and the black back-rank rook on [7][0] stores
position {x:0, y:0} although it sits on rank 7. -/
theorem new_game_misassigned_rule_and_position :
    Game.new.turn = Color.White ∧
    (Game.new.board.state 0 2).boardRep = 'B' ∧
    (Game.new.board.state 0 2).isMoveValid = MoveRule.rookRule ∧
    (Game.new.board.state 7 2).boardRep = 'b' ∧
    (Game.new.board.state 7 2).isMoveValid = MoveRule.rookRule ∧
    (Game.new.board.state 7 0).position = { x := 0, y := 0 } := by
  decide

/-- C8: the spec claims the move (1,4)→(3,4) — the white pawn's two-square
advance — succeeds from `Game::new`.  The pawn predicate measures forward
progress along the y coordinate, but `Game::new` lays ranks out along x
(the pawn sits at position {x:1, y:4}), so the predicate rejects this move
(y-displacement 0).  The turn toggle in `run_game` is unconditional, so the
turn still becomes Black. -/
theorem new_game_pawn_double_advance_rejected :
    isPawnMoveValid (Game.new.board.state 1 4)
      { start := { x := 1, y := 4 }, end_ := { x := 3, y := 4 } } = false ∧
    nextTurn Game.new.turn = Color.Black := by
  decide

/-- C9: every per-kind legality predicate begins with
`if piece.captured { return false; }`, so a captured piece never has a legal
move under any of the six predicates. -/
theorem captured_piece_never_moves (p : Piece) (m : Move) (h : p.captured = true) :
    isPawnMoveValid p m = false ∧ isRookMoveValid p m = false ∧
    isBishopMoveValid p m = false ∧ isKnightMoveValid p m = false ∧
    isQueenMoveValid p m = false ∧ isKingMoveValid p m = false := by
  simp [isPawnMoveValid, isRookMoveValid, isBishopMoveValid,
    isKnightMoveValid, isQueenMoveValid, isKingMoveValid, h]

/-- Witness for C9: the sentinel cell piece of `Game::new` is marked
captured, and all six predicates reject a concrete move for it. -/
theorem captured_piece_never_moves_witness :
    emptyCellPiece.captured = true ∧
    (isPawnMoveValid emptyCellPiece
        { start := { x := 0, y := 0 }, end_ := { x := 1, y := 0 } } = false ∧
     isRookMoveValid emptyCellPiece
        { start := { x := 0, y := 0 }, end_ := { x := 1, y := 0 } } = false ∧
     isBishopMoveValid emptyCellPiece
        { start := { x := 0, y := 0 }, end_ := { x := 1, y := 0 } } = false ∧
     isKnightMoveValid emptyCellPiece
        { start := { x := 0, y := 0 }, end_ := { x := 1, y := 0 } } = false ∧
     isQueenMoveValid emptyCellPiece
        { start := { x := 0, y := 0 }, end_ := { x := 1, y := 0 } } = false ∧
     isKingMoveValid emptyCellPiece
        { start := { x := 0, y := 0 }, end_ := { x := 1, y := 0 } } = false) :=
  ⟨by decide,
   captured_piece_never_moves emptyCellPiece
     { start := { x := 0, y := 0 }, end_ := { x := 1, y := 0 } } (by decide)⟩

/-- C10: the sentinel predicate `emptyPieceMove` rejects every move for every
piece, and every unoccupied cell of the `Game::new` board (ranks 2-5, all
files) stores exactly that predicate, so no move originating from an
unoccupied square is ever shape-legal. -/
theorem empty_cell_never_shape_legal (p : Piece) (m : Move) (i : Fin 4) (j : Fin 8) :
    emptyPieceMove p m = false ∧
    runRule (Game.new.board.state (i.val + 2) j.val).isMoveValid
      (Game.new.board.state (i.val + 2) j.val) m = false := by
  refine ⟨rfl, ?_⟩
  fin_cases i <;> fin_cases j <;> rfl

end Regalis
